import Mathlib

/-!
Verification of the manual/partial workflow execution orchestration logic
of the n8n fork (`WorkflowExecutionService`).

The TypeScript service is shallowly embedded: each method becomes a pure
Lean function; external collaborators (graph engine `Workflow#getParentNodes`,
node-type registry, `testWebhooks.needsWebhook`, `workflowRunner.run`,
repositories, the subworkflow policy checker) are supplied as oracle fields
of an environment record, and the invocation of the run engine is made
observable by returning the exact payload that would be handed to it.
JavaScript truthiness on optional strings (`if (x)` being false for both
`undefined` and `""`) is modelled explicitly.
-/

namespace WorkflowExec

/-- Opaque JSON-object payloads (input data, trigger payloads, pinned
outputs).  The service never inspects their structure, only stores and
forwards them, so a concrete representation with decidable equality
suffices. -/
abbrev JsonObj : Type := List (String × String)

/-- A workflow node (`INode`): name, declared type identifier, type version,
disabled flag. -/
structure INode where
  name : String
  type : String
  typeVersion : Nat := 1
  disabled : Bool := false
deriving DecidableEq

/-- Pin data (`IPinData`): mapping from node name to the pinned literal output
(`[{ json: ... }]`), kept as an insertion-ordered association list exactly
as a JS object preserves key order. -/
abbrev IPinData : Type := List (String × List JsonObj)

/-- Run data (`IRunData`): per-node recorded output of a previous execution.  Only
presence of a node's entry is ever inspected, the entries themselves are
opaque. -/
abbrev IRunData : Type := List (String × String)

/-- Workflow entity (`IWorkflowBase`): the loaded workflow entity.  `connections` is carried
opaquely (the service only forwards it to the external graph engine). -/
structure IWorkflowBase where
  id : String
  name : String := ""
  nodes : List INode
  connections : List (String × List String) := []
  active : Bool := false
  pinData : Option IPinData := none
deriving DecidableEq

/-- Element of an explicit start-node list (`StartNodeData`). -/
structure StartNode where
  name : String
  sourceData : Option String := none
deriving DecidableEq

/-- Reference `{ name }` to the trigger to start from. -/
structure TriggerRef where
  name : String
deriving DecidableEq

/-- Manual-run request (`WorkflowRequest.ManualRunPayload`): the normalized manual-execution
request assembled by the builder and consumed by `executeManually`. -/
structure ManualRunPayload where
  workflowData : IWorkflowBase
  runData : Option IRunData := none
  startNodes : Option (List StartNode) := none
  destinationNode : Option String := none
  dirtyNodeNames : Option (List String) := none
  triggerToStartFrom : Option TriggerRef := none
  agentRequest : Option String := none
deriving DecidableEq

/-- The `startData`/`resultData`/`manualData` block persisted on the payload
when manual executions are offloaded to workers in queue mode. -/
structure ExecutionDataBlock where
  startNodes : Option (List StartNode)
  destinationNode : Option String
  pinData : Option IPinData
  runData : Option IRunData
  userId : String
  dirtyNodeNames : Option (List String)
  triggerToStartFrom : Option TriggerRef
deriving DecidableEq

/-- The `IWorkflowExecutionDataProcess` record handed to
`workflowRunner.run` by `executeManually`. -/
structure RunnerData where
  destinationNode : Option String
  executionMode : String
  runData : Option IRunData
  pinData : Option IPinData
  pushRef : Option String
  startNodes : Option (List StartNode)
  workflowData : IWorkflowBase
  userId : String
  dirtyNodeNames : Option (List String)
  triggerToStartFrom : Option TriggerRef
  agentRequest : Option String
  streamingEnabled : Option Bool
  executionData : Option ExecutionDataBlock
deriving DecidableEq

/-- Result of `executeManually`: the waiting branch returns
`{ waitingForWebhook: true }` with no `executionId` property, the normal
branch returns `{ executionId }`. -/
structure ManualResult where
  executionId : Option String
  waitingForWebhook : Bool
deriving DecidableEq

/-- Failure kinds surfaced by the primary execution path
(`BadRequestError`, `NotFoundError`). -/
inductive ApiError where
  | badRequest (msg : String)
  | notFound (msg : String)
deriving DecidableEq

/-- Result shape of `executeWorkflow`: `executionId` as observed at runtime
(`result.executionId!` on the waiting branch yields `undefined`, modelled as
`none`), plus the optional `waiting` status. -/
structure ExecResult where
  executionId : Option String
  status : Option String
deriving DecidableEq

/-- Prior execution record as read back from the execution store; only
`data?.resultData?.runData` is consumed. -/
structure ExecRecord where
  runData : Option IRunData
deriving DecidableEq

/-- Custom trigger spec `{ triggerName, payload }` from the options bundle. -/
structure TriggerData where
  triggerName : String
  payload : JsonObj
deriving DecidableEq

/-- The options bundle of `executeWorkflow`. -/
structure ExecuteOptions where
  destinationNode : Option String := none
  executionId : Option String := none
  dirtyNodes : Option (List String) := none
  triggerData : Option TriggerData := none
deriving DecidableEq

/-- Collaborator oracles for the primary execution path.  `getParentNodes`
is the external graph engine's ancestor query, `isTriggerGroup t v` states
whether the registry's descriptor for type `t` at version `v` has `trigger`
among its groups, `needsWebhook` is the run engine's webhook-readiness
answer, `runnerId` the execution id minted by `workflowRunner.run`, and
`offloadManualExecutions` the queue-mode offload switch. -/
structure Env where
  getParentNodes : String → List String
  isTriggerGroup : String → Nat → Bool
  needsWebhook : Bool
  runnerId : String
  offloadManualExecutions : Bool
  findWorkflow : String → Option IWorkflowBase
  findExecution : String → Option ExecRecord

/-- JavaScript truthiness of an optional string: `undefined` and `""` are
falsy. -/
def jsTruthy : Option String → Bool
  | none => false
  | some s => !(s == "")

/-- Lower-casing used by the suffix checks (`node.type.toLowerCase()`). -/
def lowerStr (s : String) : String := String.mk (s.data.map Char.toLower)

/-- Suffix test on the underlying character lists
(`String.prototype.endsWith`). -/
def strEndsWith (s suffix : String) : Bool := suffix.data.isSuffixOf s.data

/-- Contiguous-sublist test. -/
def listHasInfix (pat : List Char) : List Char → Bool
  | [] => pat.isEmpty
  | c :: rest => pat.isPrefixOf (c :: rest) || listHasInfix pat rest

/-- Substring test (`String.prototype.includes`). -/
def strContains (s pat : String) : Bool := listHasInfix pat.data s.data

/-- Lookup of a node's pin entry (`pinData?.[node.name]`). -/
def pinLookup (pinData : Option IPinData) (name : String) : Option (List JsonObj) :=
  match pinData with
  | none => none
  | some pd => pd.lookup name

/-- JS object spread `{...pd, [name]: v}`: replaces the value in place when
the key exists, appends otherwise. -/
def setPin (pd : IPinData) (name : String) (v : List JsonObj) : IPinData :=
  if pd.any (fun kv => kv.1 == name) then
    pd.map (fun kv => if kv.1 == name then (name, v) else kv)
  else pd ++ [(name, v)]

/-- Filter of `findAllPinnedActivators`: non-disabled, pinned, type suffixed
`trigger`/`webhook` (case-insensitively), and not the respond pseudo-node. -/
def isPinnedActivator (pinData : Option IPinData) (node : INode) : Bool :=
  !node.disabled &&
  (pinLookup pinData node.name).isSome &&
  (["trigger", "webhook"].any (fun suffix => strEndsWith (lowerStr node.type) suffix)) &&
  !(node.type == "n8n-nodes-base.respondToWebhook")

/-- Collection step `findAllPinnedActivators`: filters the workflow's nodes as above, then
applies the JS `.sort((a) => a.type.endsWith('webhook') ? -1 : 1)`, whose
effect is to place every node whose type (case-sensitively) ends in
`webhook` before all others; the order within each group is
implementation-defined in JS and modelled as stable. -/
def findAllPinnedActivators (workflow : IWorkflowBase) (pinData : Option IPinData) :
    List INode :=
  let filtered := workflow.nodes.filter (isPinnedActivator pinData)
  filtered.filter (fun node => strEndsWith node.type "webhook") ++
    filtered.filter (fun node => !(strEndsWith node.type "webhook"))

/-- Branching core of `selectPinnedActivatorStarter` once the pinned
activators have been collected. -/
def selectFromActivators (env : Env) (allPinnedActivators : List INode)
    (startNodeNames : List String) (destinationNode : Option String) : Option INode :=
  match allPinnedActivators with
  | [] => none
  | firstPinnedActivator :: _ =>
    match startNodeNames with
    | [] =>
      -- full manual execution
      (match destinationNode with
       | some dest =>
         if dest == "" then some firstPinnedActivator
         else
           let destinationParents := env.getParentNodes dest
           match allPinnedActivators.find? (fun a => destinationParents.contains a.name) with
           | some activator => some activator
           | none => some firstPinnedActivator
       | none => some firstPinnedActivator)
    | firstStartNodeName :: _ =>
      -- partial manual execution: only the zeroth start node's parents are searched
      let parentNodeNames := env.getParentNodes firstStartNodeName
      if parentNodeNames.length > 0 then
        match parentNodeNames.find? (fun p => p == firstPinnedActivator.name) with
        | some parentNodeName => allPinnedActivators.find? (fun pa => pa.name == parentNodeName)
        | none => none  -- `pa.name === undefined` never holds
      else
        allPinnedActivators.find? (fun pa => pa.name == firstStartNodeName)

/-- Selector `selectPinnedActivatorStarter(workflow, startNodes?, pinData?,
destinationNode?)`. -/
def selectPinnedActivatorStarter (env : Env) (workflow : IWorkflowBase)
    (startNodes : Option (List String)) (pinData : Option IPinData)
    (destinationNode : Option String) : Option INode :=
  match pinData, startNodes with
  | none, _ => none
  | some _, none => none
  | some pd, some sns =>
    selectFromActivators env (findAllPinnedActivators workflow (some pd)) sns destinationNode

/-- Check `isDestinationNodeATrigger`: resolves the destination node by name and
asks the node-type registry whether its group includes `trigger`; a missing
node is a negative answer. -/
def isDestinationNodeATrigger (env : Env) (destinationNode : String)
    (workflow : IWorkflowBase) : Bool :=
  match workflow.nodes.find? (fun n => n.name == destinationNode) with
  | none => false
  | some node => env.isTriggerGroup node.type node.typeVersion

/-- Presence test `runData !== undefined && !!runData[node.name]`. -/
def hasRunDataFor (runData : Option IRunData) (node : INode) : Bool :=
  match runData with
  | none => false
  | some rd => (rd.lookup node.name).isSome

/-- The run-data discard of `executeManually`: if a (truthy) destination
node is a trigger this is by definition not a partial execution, so the
supplied run data is ignored. -/
def effectiveRunData (env : Env) (payload : ManualRunPayload) : Option IRunData :=
  match payload.destinationNode with
  | some d =>
    if d == "" then payload.runData
    else if isDestinationNodeATrigger env d payload.workflowData then none
    else payload.runData
  | none => payload.runData

/-- The pinned-trigger override of `executeManually`: a caller-supplied
trigger to start from that differs from the pinned trigger discards the
pinned trigger. -/
def overridePinnedTrigger (pinnedTrigger0 : Option INode)
    (triggerToStartFrom : Option TriggerRef) : Option INode :=
  match pinnedTrigger0, triggerToStartFrom with
  | some pt, some t => if !(pt.name == t.name) then none else some pt
  | pt0, _ => pt0

/-- Assembly of the `IWorkflowExecutionDataProcess` record in
`executeManually`: builds the record (with `active` forced to false on the
workflow copy), replaces `startNodes` with the pinned trigger when it has no
run data, and attaches the `executionData` block in queue/offload mode. -/
def assembleRunnerData (env : Env) (payload : ManualRunPayload) (userId : String)
    (pushRef : Option String) (streamingEnabled : Option Bool)
    (runData : Option IRunData) (pinnedTrigger : Option INode) : RunnerData :=
  let pinData := payload.workflowData.pinData
  -- for manual testing always set to not active
  let workflowData1 := { payload.workflowData with active := false }
  let data0 : RunnerData := {
    destinationNode := payload.destinationNode,
    executionMode := "manual",
    runData := runData,
    pinData := pinData,
    pushRef := pushRef,
    startNodes := payload.startNodes,
    workflowData := workflowData1,
    userId := userId,
    dirtyNodeNames := payload.dirtyNodeNames,
    triggerToStartFrom := payload.triggerToStartFrom,
    agentRequest := payload.agentRequest,
    streamingEnabled := streamingEnabled,
    executionData := none }
  let data1 :=
    match pinnedTrigger with
    | some pt =>
      if !(hasRunDataFor runData pt) then
        { data0 with startNodes := some [{ name := pt.name, sourceData := none }] }
      else data0
    | none => data0
  if env.offloadManualExecutions then
    { data1 with executionData := some {
        startNodes := data1.startNodes,
        destinationNode := payload.destinationNode,
        pinData := pinData,
        runData := runData,
        userId := userId,
        dirtyNodeNames := payload.dirtyNodeNames,
        triggerToStartFrom := payload.triggerToStartFrom } }
  else data1

/-- Orchestration step `executeManually`.  Returns the result object together with the
`IWorkflowExecutionDataProcess` record handed to `workflowRunner.run`
(`none` when the run engine was never invoked, i.e. on the
waiting-for-webhook early return). -/
def executeManually (env : Env) (payload : ManualRunPayload) (userId : String)
    (pushRef : Option String) (streamingEnabled : Option Bool) :
    ManualResult × Option RunnerData :=
  let pinnedTrigger0 :=
    selectPinnedActivatorStarter env payload.workflowData
      (payload.startNodes.map (fun sns => sns.map (fun nodeData => nodeData.name)))
      payload.workflowData.pinData payload.destinationNode
  let runData := effectiveRunData env payload
  let pinnedTrigger := overridePinnedTrigger pinnedTrigger0 payload.triggerToStartFrom
  let startNodesMissingOrEmpty :=
    match payload.startNodes with
    | none => true
    | some l => l.isEmpty
  -- if webhook nodes exist and are active we have to wait for a call
  if pinnedTrigger.isNone &&
      (runData.isNone || startNodesMissingOrEmpty || payload.destinationNode.isNone) &&
      env.needsWebhook then
    ({ executionId := none, waitingForWebhook := true }, none)
  else
    ({ executionId := some env.runnerId, waitingForWebhook := false },
     some (assembleRunnerData env payload userId pushRef streamingEnabled runData pinnedTrigger))

/-- Filter of CASE 3 of the builder: activator nodes, same criteria as
`findAllPinnedActivators` but without the pin-data requirement. -/
def activatorNodesOf (workflow : IWorkflowBase) : List INode :=
  workflow.nodes.filter (fun node =>
    !node.disabled &&
    (["trigger", "webhook"].any (fun suffix => strEndsWith (lowerStr node.type) suffix)) &&
    !(node.type == "n8n-nodes-base.respondToWebhook"))

/-- CASE 3 start-node priority: a `n8n-nodes-base.manualTrigger` node first,
else a node whose lower-cased type contains `webhook`, else the first
activator. -/
def case3StartNode (activatorNodes : List INode) (a0 : INode) : INode :=
  match activatorNodes.find? (fun node => node.type == "n8n-nodes-base.manualTrigger") with
  | some sn => sn
  | none =>
    match activatorNodes.find? (fun node => strContains (lowerStr node.type) "webhook") with
    | some sn => sn
    | none => a0

/-- Builder `buildExecutionPayload`.  The first component of the result is the
workflow object after the call: in the source the payload's `workflowData`
aliases the loaded workflow, so the pin-data assignments mutate it; the
throw on a missing custom trigger happens before any such assignment. -/
def buildExecutionPayload (workflow : IWorkflowBase) (inputData : Option JsonObj)
    (options : ExecuteOptions) (previousRunData : Option IRunData)
    (previousPinData : Option IPinData) :
    IWorkflowBase × Except ApiError ManualRunPayload :=
  -- CASE 1: custom trigger data provided
  match options.triggerData with
  | some triggerData =>
    match workflow.nodes.find? (fun n => n.name == triggerData.triggerName) with
    | none =>
      (workflow,
       .error (.badRequest
         ("Trigger node \"" ++ triggerData.triggerName ++ "\" not found in workflow")))
    | some triggerNode =>
      let wf := { workflow with
        pinData := some (setPin (workflow.pinData.getD []) triggerNode.name [triggerData.payload]) }
      (wf, .ok { workflowData := wf,
                 triggerToStartFrom := some { name := triggerNode.name },
                 startNodes := some [],
                 destinationNode :=
                   if jsTruthy options.destinationNode then options.destinationNode else none })
  | none =>
    -- CASE 2: partial execution (resuming from previous run)
    if previousRunData.isSome && jsTruthy options.destinationNode then
      let wf :=
        match previousPinData with
        | some ppd => { workflow with pinData := some ppd }
        | none => workflow
      (wf, .ok { workflowData := wf,
                 runData := previousRunData,
                 destinationNode := options.destinationNode,
                 dirtyNodeNames := some (options.dirtyNodes.getD []) })
    else
      -- CASE 3: full execution with input data
      match inputData with
      | some input =>
        (match activatorNodesOf workflow with
         | [] => (workflow, .error (.badRequest "Workflow has no trigger or webhook nodes"))
         | a0 :: rest =>
           let startNode := case3StartNode (a0 :: rest) a0
           let wf := { workflow with
             pinData := some (setPin (workflow.pinData.getD []) startNode.name [input]) }
           (wf, .ok { workflowData := wf,
                      triggerToStartFrom := some { name := startNode.name },
                      startNodes := some [],
                      destinationNode :=
                        if jsTruthy options.destinationNode then options.destinationNode else none }))
      | none =>
        -- CASE 4: full execution without input data
        let wf :=
          match previousPinData with
          | some ppd => { workflow with pinData := some ppd }
          | none => workflow
        (wf, .ok { workflowData := wf,
                   destinationNode :=
                     if jsTruthy options.destinationNode then options.destinationNode else none })

/-- Name of the trigger-to-start-from recorded in a successfully built
payload. -/
def payloadTriggerName (r : IWorkflowBase × Except ApiError ManualRunPayload) : Option String :=
  match r.2 with
  | .ok p => p.triggerToStartFrom.map (fun t => t.name)
  | .error _ => none

/-- Step 3 of `executeWorkflow`: loading the prior execution when an
`executionId` option is (truthily) present. -/
def loadPreviousExecution (env : Env) (workflow : IWorkflowBase)
    (options : ExecuteOptions) : Except ApiError (Option IRunData × Option IPinData) :=
  match options.executionId with
  | some eid =>
    if eid == "" then .ok (none, none)
    else
      match env.findExecution eid with
      | none => .error (.notFound ("Execution with ID \"" ++ eid ++ "\" not found"))
      | some previousExecution => .ok (previousExecution.runData, workflow.pinData)
  | none => .ok (none, none)

/-- Orchestrator `executeWorkflow`: the public-API entry point.  The second component of
the result is the record handed to `workflowRunner.run`, `none` when the run
engine's execute operation was never invoked. -/
def executeWorkflow (env : Env) (workflowId : String) (inputData : Option JsonObj)
    (options : ExecuteOptions) (userId : String) :
    Except ApiError ExecResult × Option RunnerData :=
  match env.findWorkflow workflowId with
  | none => (.error (.notFound ("Workflow with ID \"" ++ workflowId ++ "\" not found")), none)
  | some workflow =>
    match loadPreviousExecution env workflow options with
    | .error e => (.error e, none)
    | .ok (previousRunData, previousPinData) =>
      match buildExecutionPayload workflow inputData options previousRunData previousPinData with
      | (_, .error e) => (.error e, none)
      | (_, .ok payload) =>
        let r := executeManually env payload userId none none
        if r.1.waitingForWebhook then
          (.ok { executionId := r.1.executionId, status := some "waiting" }, r.2)
        else
          (.ok { executionId := r.1.executionId, status := none }, r.2)

/-! Error-Workflow Invoker (`executeErrorWorkflow`) -/

/-- Failure description (`IWorkflowErrorData`) as consumed by the invoker: the failing workflow's
id, the originating execution's id and last executed node, when known. -/
structure WorkflowErrorData where
  workflowId : String
  executionId : Option String := none
  lastNodeExecuted : Option String := none
deriving DecidableEq

/-- Parent-execution reference `{ executionId, workflowId }` tagged onto the
seeded execution stack. -/
structure ParentExecRef where
  executionId : String
  workflowId : String
deriving DecidableEq

/-- The `IWorkflowExecutionDataProcess` record the invoker hands to
`workflowRunner.run`: mode `error`, a stack seeded with the error-trigger
node and the failure description as its json payload. -/
structure ErrRunnerData where
  executionMode : String
  workflowId : String
  projectId : String
  startNode : INode
  errorJson : WorkflowErrorData
  parentExecution : Option ParentExecRef
deriving DecidableEq

/-- Shape of `ExecutionDataService.generateFailedExecutionFromError`'s
result, of which only `data`, `mode` and `status` are read back. -/
structure FakeExecution where
  data : String
  mode : String
  status : String
deriving DecidableEq

/-- Record (`CreateExecutionPayload`) for the synthetic failed execution recorded on
policy rejection. -/
structure CreateExecutionPayload where
  data : String
  mode : String
  finished : Bool
  stoppedAt : Option Nat
  waitTill : Option Nat
  status : String
  workflowId : String
deriving DecidableEq

/-- Collaborator oracles of the error-workflow path.  Each fallible
collaborator returns `Except String` so that an arbitrary thrown exception
is representable; `policyCheck` throwing models both policy rejection and
any other checker failure (the source catches them alike). -/
structure ErrEnv where
  findWorkflow : String → Except String (Option IWorkflowBase)
  policyCheck : IWorkflowBase → Option INode → Except String Unit
  getStartNode : IWorkflowBase → Option INode
  generateFailed : FakeExecution
  createExecution : CreateExecutionPayload → Except String Unit
  runnerRun : ErrRunnerData → Except String String
  errorTriggerType : String
  now : Nat

/-- Outcome tag of one invocation of the error-workflow invoker. -/
inductive ErrOutcome where
  | workflowMissing
  | policyBlocked
  | noErrorTrigger
  | started (executionId : String)
  | caught (msg : String)
deriving DecidableEq

/-- Observable trace of one invocation: the synthetic execution record
created (if any), the payload handed to the run engine (if any), and the
outcome. -/
structure ErrWfResult where
  created : Option CreateExecutionPayload
  ran : Option ErrRunnerData
  outcome : ErrOutcome
deriving DecidableEq

/-- Body of `executeErrorWorkflow` without the outermost try/catch:
collaborator exceptions propagate as `Except.error`.  The loop over
`workflowInstance.nodes` keeps overwriting `workflowStartNode`, so the last
node of the error-trigger type wins. -/
def executeErrorWorkflowRaw (env : ErrEnv) (workflowId : String)
    (workflowErrorData : WorkflowErrorData) (projectId : String) :
    Except String ErrWfResult :=
  match env.findWorkflow workflowId with
  | .error e => .error e
  | .ok none => .ok { created := none, ran := none, outcome := .workflowMissing }
  | .ok (some workflowData) =>
    let failedNode :=
      workflowErrorData.lastNodeExecuted.bind
        (fun lne => workflowData.nodes.find? (fun n => n.name == lne))
    match env.policyCheck workflowData failedNode with
    | .error _ =>
      -- inner catch: policy rejection (or checker failure)
      (match env.getStartNode workflowData with
       | some _initialNode =>
         let fakeExecution := env.generateFailed
         let fullExecutionData : CreateExecutionPayload := {
           data := fakeExecution.data,
           mode := fakeExecution.mode,
           finished := false,
           stoppedAt := some env.now,
           waitTill := none,
           status := fakeExecution.status,
           workflowId := workflowData.id }
         match env.createExecution fullExecutionData with
         | .ok _ => .ok { created := some fullExecutionData, ran := none, outcome := .policyBlocked }
         | .error e => .error e
       | none => .ok { created := none, ran := none, outcome := .policyBlocked })
    | .ok _ =>
      match workflowData.nodes.foldl
          (fun acc node => if node.type == env.errorTriggerType then some node else acc) none with
      | none => .ok { created := none, ran := none, outcome := .noErrorTrigger }
      | some workflowStartNode =>
        let parentExecution : Option ParentExecRef :=
          match workflowErrorData.executionId with
          | some eid =>
            if !(eid == "") && !(workflowErrorData.workflowId == "") then
              some { executionId := eid, workflowId := workflowErrorData.workflowId }
            else none
          | none => none
        let runData : ErrRunnerData := {
          executionMode := "error",
          workflowId := workflowData.id,
          projectId := projectId,
          startNode := workflowStartNode,
          errorJson := workflowErrorData,
          parentExecution := parentExecution }
        match env.runnerRun runData with
        | .ok executionId => .ok { created := none, ran := some runData, outcome := .started executionId }
        | .error e => .error e

/-- Invoker `executeErrorWorkflow`: the whole body is wrapped in try/catch, so every
collaborator exception is converted into a caught-and-logged normal
return. -/
def executeErrorWorkflow (env : ErrEnv) (workflowId : String)
    (workflowErrorData : WorkflowErrorData) (projectId : String) :
    Except String ErrWfResult :=
  match executeErrorWorkflowRaw env workflowId workflowErrorData projectId with
  | .ok r => .ok r
  | .error e => .ok { created := none, ran := none, outcome := .caught e }

/-! Spec-described variant of the partial-execution selection

The spec describes the partial branch of the selector as a chain of
fallbacks: first-activator-among-ancestors, then start-node-is-itself-an-
activator, then none.  The source instead branches on whether the ancestor
list is empty.  This definition follows the spec's words, to be compared
with `selectPinnedActivatorStarter`. -/

/-- Modelled from the spec (partial-execution sentence of the
Pinned-Activator Selector, §4.2): compute the ancestor set of the first
supplied start node only; if the first default-ordered activator's name
appears in that ancestor set, return the matching activator from the full
list; otherwise, if the first explicit start node's name itself matches an
activator, return that activator; otherwise return none. -/
def selectPinnedPartialSpec (env : Env) (workflow : IWorkflowBase)
    (startNodes : List String) (pinData : IPinData) : Option INode :=
  match findAllPinnedActivators workflow (some pinData), startNodes with
  | [], _ => none
  | _, [] => none
  | firstPinnedActivator :: rest, firstStartNodeName :: _ =>
    let parents := env.getParentNodes firstStartNodeName
    if parents.contains firstPinnedActivator.name then
      (firstPinnedActivator :: rest).find? (fun pa => pa.name == firstPinnedActivator.name)
    else
      (firstPinnedActivator :: rest).find? (fun pa => pa.name == firstStartNodeName)

/-! Concrete fixtures for witnesses and counterexamples -/

/-- Baseline collaborator environment: empty graph, nothing registered. -/
def envBase : Env := {
  getParentNodes := fun _ => [],
  isTriggerGroup := fun _ _ => false,
  needsWebhook := false,
  runnerId := "exec-1",
  offloadManualExecutions := false,
  findWorkflow := fun _ => none,
  findExecution := fun _ => none }

/-- Pinned schedule-trigger node `A`. -/
def nodeA : INode := { name := "A", type := "n8n-nodes-base.scheduleTrigger" }

/-- Pinned webhook node `B`. -/
def nodeB : INode := { name := "B", type := "n8n-nodes-base.webhook" }

/-- Regular node `X`. -/
def nodeX : INode := { name := "X", type := "n8n-nodes-base.set" }

/-- Pin data for `A` and `B`. -/
def pdAB : IPinData := [("A", [[]]), ("B", [[]])]

/-- Workflow with two pinned activators and a regular node. -/
def wAB : IWorkflowBase := { id := "w1", nodes := [nodeA, nodeB, nodeX], pinData := some pdAB }

/-- Environment in which destination `D` has ancestors `A` and `X`. -/
def envDestD : Env := { envBase with getParentNodes := fun n => if n = "D" then ["A", "X"] else [] }

/-- Pinned activator `S` of a generic trigger type. -/
def nodeS : INode := { name := "S", type := "x.trigger" }

/-- Pin data for `S` alone. -/
def pdS : IPinData := [("S", [[]])]

/-- Workflow where `S` is the only pinned activator and `P`, `Q` are regular
nodes. -/
def wSPQ : IWorkflowBase := {
  id := "w3",
  nodes := [nodeS, { name := "P", type := "n8n-nodes-base.set" },
            { name := "Q", type := "n8n-nodes-base.set" }],
  pinData := some pdS }

/-- Environment in which start node `S` has the single (non-activator)
ancestor `P`. -/
def envParentP : Env := { envBase with getParentNodes := fun n => if n = "S" then ["P"] else [] }

/-- Environment in which start node `Q` has the single ancestor `S`. -/
def envParentS : Env := { envBase with getParentNodes := fun n => if n = "Q" then ["S"] else [] }

/-- Workflow with one regular node only (no activators, no pins). -/
def wPlain : IWorkflowBase := { id := "wf1", nodes := [nodeX] }

/-- Environment resolving workflow id `wf1` to `wPlain` with active test
webhooks (`needsWebhook` answers true). -/
def envWebhookWait : Env := { envBase with
  needsWebhook := true,
  findWorkflow := fun wid => if wid = "wf1" then some wPlain else none }

/-- Environment resolving workflow id `wf1` to `wPlain` (no webhook wait). -/
def envPlain : Env := { envBase with
  findWorkflow := fun wid => if wid = "wf1" then some wPlain else none }

/-- Webhook node `W`. -/
def nodeW : INode := { name := "W", type := "n8n-nodes-base.webhook" }

/-- Manual-trigger node `M`. -/
def nodeM : INode := { name := "M", type := "n8n-nodes-base.manualTrigger" }

/-- Scenario B workflow: a webhook node `W` and a manual trigger `M`. -/
def wWM : IWorkflowBase := { id := "wb", nodes := [nodeW, nodeM] }

/-- Pinned generic trigger `T`. -/
def nodeT : INode := { name := "T", type := "a.trigger" }

/-- Workflow whose only node is the pinned trigger `T`. -/
def wT : IWorkflowBase := { id := "w10", nodes := [nodeT], pinData := some [("T", [[]])] }

/-- Environment whose node-type registry classifies exactly type
`a.trigger` in the trigger group. -/
def envTrig : Env := { envBase with isTriggerGroup := fun t _ => t = "a.trigger" }

/-- Manual-run payload aimed at destination `T` carrying prior run data. -/
def payloadT : ManualRunPayload := {
  workflowData := wT,
  runData := some [("Z", "out")],
  startNodes := some [],
  destinationNode := some "T" }

/-- Options bundle naming a custom trigger that exists in no fixture
workflow. -/
def optsGhost : ExecuteOptions :=
  { triggerData := some { triggerName := "ghost", payload := [("k", "v")] } }

/-- The runner payload assembled for `payloadT` under `envTrig`: the pinned
trigger `T` seeds the start nodes and the run data has been discarded. -/
def dataC10 : RunnerData := assembleRunnerData envTrig payloadT "u1" none none none (some nodeT)

/-- Error workflow containing one error-trigger node. -/
def wErr : IWorkflowBase := {
  id := "ew1",
  nodes := [{ name := "E", type := "n8n-nodes-base.errorTrigger" }] }

/-- Failure description of the originating execution. -/
def edC8 : WorkflowErrorData := {
  workflowId := "failing-wf",
  executionId := some "exec-9",
  lastNodeExecuted := none }

/-- Synthetic failed-execution fields produced by the execution-data
service. -/
def fakeC8 : FakeExecution := { data := "fake-data", mode := "error", status := "error" }

/-- Error-path environment whose policy checker rejects every call and
whose graph engine finds no start node in the error workflow. -/
def envPolicyReject : ErrEnv := {
  findWorkflow := fun wid => if wid = "ew1" then .ok (some wErr) else .ok none,
  policyCheck := fun _ _ => .error "subworkflow policy denied",
  getStartNode := fun _ => none,
  generateFailed := fakeC8,
  createExecution := fun _ => .ok (),
  runnerRun := fun _ => .ok "err-exec-1",
  errorTriggerType := "n8n-nodes-base.errorTrigger",
  now := 1700000000 }

/-- Same rejecting environment, but the error workflow has a start node. -/
def envPolicyRejectStart : ErrEnv := { envPolicyReject with getStartNode := fun w => w.nodes.head? }

/-! General helper lemmas -/

/-- A list whose filtrate is the singleton `[a]` finds `a` first. -/
theorem find_of_filter_singleton {α : Type} (p : α → Bool) :
    ∀ (l : List α) (a : α), l.filter p = [a] → l.find? p = some a := by
  intro l a h
  induction l with
  | nil => simp at h
  | cons b t ih =>
    by_cases hb : p b
    · rw [List.filter_cons_of_pos hb] at h
      obtain ⟨rfl, _⟩ := List.cons.inj h
      exact List.find?_cons_of_pos _ hb
    · rw [List.filter_cons_of_neg hb] at h
      rw [List.find?_cons_of_neg _ hb]
      exact ih h

/-- A list with no element satisfying the filter finds nothing. -/
theorem find_of_filter_nil {α : Type} (p : α → Bool) (l : List α)
    (h : l.filter p = []) : l.find? p = none := by
  rw [List.find?_eq_none]
  intro x hx
  rw [List.filter_eq_nil_iff] at h
  exact fun hp => h x hx hp

/-- Finding with an equality-with-`a` test returns `a` when `a` occurs. -/
theorem find_beq_of_mem (l : List String) (a : String) (h : a ∈ l) :
    l.find? (fun p => p == a) = some a := by
  induction l with
  | nil => cases h
  | cons b t ih =>
    by_cases hb : b = a
    · subst hb
      exact List.find?_cons_of_pos _ (by simp)
    · have ht : a ∈ t := by
        cases h with
        | head => exact absurd rfl hb
        | tail _ h' => exact h'
      rw [List.find?_cons_of_neg _ (by simp [hb])]
      exact ih ht

/-- Finding with an equality-with-`a` test fails when `a` does not occur. -/
theorem find_beq_of_not_mem (l : List String) (a : String) (h : a ∉ l) :
    l.find? (fun p => p == a) = none := by
  rw [List.find?_eq_none]
  intro x hx
  simp only [beq_iff_eq]
  rintro rfl
  exact h hx

/-! Claim theorems -/

/-- Reduction of the full-execution branch of the selector for a non-empty
activator list and a non-empty destination string. -/
theorem selectFromActivators_full_cons (env : Env) (f : INode) (rest : List INode)
    (dest : String) (hde : (dest == "") = false) :
    selectFromActivators env (f :: rest) [] (some dest) =
      match (f :: rest).find? (fun a => (env.getParentNodes dest).contains a.name) with
      | some activator => some activator
      | none => some f :=
  if_neg (by simp [hde])

/-- Claim C2: for every workflow with a non-empty set of pinned activators
and every destination node `dest`, calling `selectPinnedActivatorStarter`
with an empty explicit start-node list returns the unique pinned activator
lying in `dest`'s ancestor set when there is exactly one, and falls back to
the first pinned activator in tie-break order when no pinned activator lies
in that ancestor set. -/
theorem selectPinned_full_destination (env : Env) (w : IWorkflowBase) (pd : IPinData)
    (dest : String) (hdest : dest ≠ "") :
    (∀ A, (findAllPinnedActivators w (some pd)).filter
        (fun a => (env.getParentNodes dest).contains a.name) = [A] →
      selectPinnedActivatorStarter env w (some []) (some pd) (some dest) = some A) ∧
    ((findAllPinnedActivators w (some pd)).filter
        (fun a => (env.getParentNodes dest).contains a.name) = [] →
      ∀ A rest, findAllPinnedActivators w (some pd) = A :: rest →
      selectPinnedActivatorStarter env w (some []) (some pd) (some dest) = some A) := by
  have hde : (dest == "") = false := by simp [hdest]
  constructor
  · intro A h
    have hmem : A ∈ findAllPinnedActivators w (some pd) :=
      List.mem_of_mem_filter (h ▸ List.mem_singleton.mpr rfl)
    obtain ⟨f, rest, hfr⟩ : ∃ f rest, findAllPinnedActivators w (some pd) = f :: rest := by
      cases hq : findAllPinnedActivators w (some pd) with
      | nil => rw [hq] at hmem; cases hmem
      | cons f rest => exact ⟨f, rest, rfl⟩
    have hfind := find_of_filter_singleton
      (fun (a : INode) => (env.getParentNodes dest).contains a.name) _ _ h
    show selectFromActivators env (findAllPinnedActivators w (some pd)) [] (some dest) = some A
    rw [hfr] at hfind ⊢
    rw [selectFromActivators_full_cons env f rest dest hde, hfind]
  · intro h A rest hfr
    have hfind := find_of_filter_nil
      (fun (a : INode) => (env.getParentNodes dest).contains a.name) _ h
    show selectFromActivators env (findAllPinnedActivators w (some pd)) [] (some dest) = some A
    rw [hfr] at hfind ⊢
    rw [selectFromActivators_full_cons env A rest dest hde, hfind]

/-- Witness for C2: in `wAB` the pinned activators are `[B, A]`, destination
`D` has exactly the activator `A` among its ancestors, and the selector
returns `A`. -/
theorem selectPinned_full_destination_witness :
    ("D" : String) ≠ "" ∧
    (findAllPinnedActivators wAB (some pdAB)).filter
      (fun a => (envDestD.getParentNodes "D").contains a.name) = [nodeA] ∧
    selectPinnedActivatorStarter envDestD wAB (some []) (some pdAB) (some "D") = some nodeA :=
  ⟨by decide, by rfl,
   (selectPinned_full_destination envDestD wAB pdAB "D" (by decide)).1 nodeA (by rfl)⟩

/-- Reduction of the partial-execution branch of the selector for a
non-empty activator list. -/
theorem selectFromActivators_partialBranch (env : Env) (f : INode) (frest : List INode)
    (s : String) (srest : List String) (dest : Option String) :
    selectFromActivators env (f :: frest) (s :: srest) dest =
      if (env.getParentNodes s).length > 0 then
        match (env.getParentNodes s).find? (fun p => p == f.name) with
        | some parentNodeName => (f :: frest).find? (fun pa => pa.name == parentNodeName)
        | none => none
      else (f :: frest).find? (fun pa => pa.name == s) := rfl

/-- Counterexample for C3: in `wSPQ` the start node `S` is itself the only
pinned activator but has the non-empty ancestor set `["P"]`; the source
selector returns none, whereas the spec-described chain of fallbacks
(`selectPinnedPartialSpec`) returns `S`. -/
theorem selectPinned_partial_spec_counterexample :
    selectPinnedActivatorStarter envParentP wSPQ (some ["S"]) (some pdS) none = none ∧
    selectPinnedPartialSpec envParentP wSPQ ["S"] pdS = some nodeS :=
  ⟨by rfl, by rfl⟩

/-- Claim C3 (amended): in a partial manual execution only the first start
node's ancestor set is computed; when that set is non-empty the selector
returns the activator matching the first default-ordered activator's name
if that name is in the set and none otherwise (the start node itself is not
consulted); only when the ancestor set is empty does it return the
activator whose name equals the first start node's name, or none. -/
theorem selectPinned_partial_characterization (env : Env) (w : IWorkflowBase) (pd : IPinData)
    (s : String) (srest : List String) (dest : Option String)
    (f : INode) (frest : List INode)
    (hall : findAllPinnedActivators w (some pd) = f :: frest) :
    (f.name ∈ env.getParentNodes s →
      selectPinnedActivatorStarter env w (some (s :: srest)) (some pd) dest = some f) ∧
    (env.getParentNodes s ≠ [] → f.name ∉ env.getParentNodes s →
      selectPinnedActivatorStarter env w (some (s :: srest)) (some pd) dest = none) ∧
    (env.getParentNodes s = [] →
      selectPinnedActivatorStarter env w (some (s :: srest)) (some pd) dest =
        (f :: frest).find? (fun pa => pa.name == s)) := by
  refine ⟨?_, ?_, ?_⟩
  · intro hmem
    show selectFromActivators env (findAllPinnedActivators w (some pd)) (s :: srest) dest = some f
    rw [hall, selectFromActivators_partialBranch,
      if_pos (List.length_pos.mpr (List.ne_nil_of_mem hmem)),
      find_beq_of_mem _ _ hmem]
    exact List.find?_cons_of_pos _ (by simp)
  · intro hne hnot
    show selectFromActivators env (findAllPinnedActivators w (some pd)) (s :: srest) dest = none
    rw [hall, selectFromActivators_partialBranch,
      if_pos (List.length_pos.mpr hne), find_beq_of_not_mem _ _ hnot]
  · intro hnil
    show selectFromActivators env (findAllPinnedActivators w (some pd)) (s :: srest) dest =
      (f :: frest).find? (fun pa => pa.name == s)
    rw [hall, selectFromActivators_partialBranch, if_neg (by simp [hnil])]

/-- Witness for C3 (amended): start node `Q` has the pinned activator `S`
as ancestor, and the selector returns `S`. -/
theorem selectPinned_partial_characterization_witness :
    findAllPinnedActivators wSPQ (some pdS) = [nodeS] ∧
    nodeS.name ∈ envParentS.getParentNodes "Q" ∧
    selectPinnedActivatorStarter envParentS wSPQ (some ["Q"]) (some pdS) none = some nodeS :=
  ⟨by rfl, by decide,
   (selectPinned_partial_characterization envParentS wSPQ pdS "Q" [] none nodeS []
     (by rfl)).1 (by decide)⟩

/-- Claim C7: the sequence of pinned activators is a block of nodes whose
type ends in `webhook` followed by a block of nodes whose type does not,
and when no other signal disambiguates (full execution, no destination) the
selector returns exactly the first element of that ordering. -/
theorem findAllPinnedActivators_webhook_first (env : Env) (w : IWorkflowBase) (pd : IPinData) :
    (∃ ws ns, findAllPinnedActivators w (some pd) = ws ++ ns ∧
      (∀ x ∈ ws, strEndsWith x.type "webhook" = true) ∧
      (∀ y ∈ ns, strEndsWith y.type "webhook" = false)) ∧
    selectPinnedActivatorStarter env w (some []) (some pd) none =
      (findAllPinnedActivators w (some pd)).head? := by
  constructor
  · refine ⟨_, _, rfl, ?_, ?_⟩
    · intro x hx
      exact (List.mem_filter.mp hx).2
    · intro y hy
      have hb := (List.mem_filter.mp hy).2
      simpa using hb
  · show selectFromActivators env (findAllPinnedActivators w (some pd)) [] none =
      (findAllPinnedActivators w (some pd)).head?
    cases hq : findAllPinnedActivators w (some pd) with
    | nil => rfl
    | cons f rest => rfl

/-- Claim C4: a custom-trigger request naming a node absent from the
workflow makes the builder fail with BadRequest, and the workflow object
(in particular its pin data) is returned unchanged: the throw happens
before the pin-data assignment. -/
theorem buildPayload_missing_trigger_no_mutation (w : IWorkflowBase)
    (inputData : Option JsonObj) (opts : ExecuteOptions)
    (prd : Option IRunData) (ppd : Option IPinData) (td : TriggerData)
    (h1 : opts.triggerData = some td)
    (h2 : w.nodes.find? (fun n => n.name == td.triggerName) = none) :
    buildExecutionPayload w inputData opts prd ppd =
      (w, .error (.badRequest
        ("Trigger node \"" ++ td.triggerName ++ "\" not found in workflow"))) := by
  simp [buildExecutionPayload, h1, h2]

/-- Witness for C4: requesting the non-existent trigger `ghost` on `wPlain`
fails with BadRequest and leaves the workflow untouched. -/
theorem buildPayload_missing_trigger_no_mutation_witness :
    optsGhost.triggerData = some { triggerName := "ghost", payload := [("k", "v")] } ∧
    wPlain.nodes.find? (fun n => n.name == "ghost") = none ∧
    buildExecutionPayload wPlain none optsGhost none none =
      (wPlain, .error (.badRequest "Trigger node \"ghost\" not found in workflow")) :=
  ⟨rfl, by rfl,
   buildPayload_missing_trigger_no_mutation wPlain none optsGhost none none _ rfl (by rfl)⟩

/-- Claim C5: a full execution with input data on a workflow without
activator nodes fails with BadRequest (`Workflow has no trigger or webhook
nodes`) and the run engine is never invoked (no runner payload is
produced). -/
theorem executeWorkflow_no_activators_badRequest (env : Env) (wid uid : String)
    (w : IWorkflowBase) (d : JsonObj) (opts : ExecuteOptions)
    (prd : Option IRunData) (ppd : Option IPinData)
    (h1 : env.findWorkflow wid = some w)
    (h2 : loadPreviousExecution env w opts = .ok (prd, ppd))
    (h3 : opts.triggerData = none)
    (h4 : (prd.isSome && jsTruthy opts.destinationNode) = false)
    (h5 : activatorNodesOf w = []) :
    executeWorkflow env wid (some d) opts uid =
      (.error (.badRequest "Workflow has no trigger or webhook nodes"), none) := by
  simp [executeWorkflow, h1, h2, buildExecutionPayload, h3, h4, h5]

/-- Witness for C5: `wPlain` has no activator nodes, so its full-input
execution fails with BadRequest and no runner payload. -/
theorem executeWorkflow_no_activators_badRequest_witness :
    envPlain.findWorkflow "wf1" = some wPlain ∧
    activatorNodesOf wPlain = [] ∧
    executeWorkflow envPlain "wf1" (some [("a", "1")]) {} "u1" =
      (.error (.badRequest "Workflow has no trigger or webhook nodes"), none) :=
  ⟨by rfl, by rfl,
   executeWorkflow_no_activators_badRequest envPlain "wf1" "u1" wPlain [("a", "1")] {}
     none none (by rfl) (by rfl) rfl rfl (by rfl)⟩

/-- Claim C6: in a full execution with input data (CASE 3) the start node
is chosen by priority: the first `n8n-nodes-base.manualTrigger` node if one
exists among the activators, else the first node whose lower-cased type
contains `webhook`, else the first activator node. -/
theorem buildPayload_full_input_priority (w : IWorkflowBase) (input : JsonObj)
    (opts : ExecuteOptions) (prd : Option IRunData) (ppd : Option IPinData)
    (h1 : opts.triggerData = none)
    (h2 : (prd.isSome && jsTruthy opts.destinationNode) = false) :
    (∀ M, (activatorNodesOf w).find?
        (fun node => node.type == "n8n-nodes-base.manualTrigger") = some M →
      payloadTriggerName (buildExecutionPayload w (some input) opts prd ppd) = some M.name) ∧
    (∀ W, (activatorNodesOf w).find?
        (fun node => node.type == "n8n-nodes-base.manualTrigger") = none →
      (activatorNodesOf w).find? (fun node => strContains (lowerStr node.type) "webhook") = some W →
      payloadTriggerName (buildExecutionPayload w (some input) opts prd ppd) = some W.name) ∧
    (∀ a0 rest, (activatorNodesOf w).find?
        (fun node => node.type == "n8n-nodes-base.manualTrigger") = none →
      (activatorNodesOf w).find? (fun node => strContains (lowerStr node.type) "webhook") = none →
      activatorNodesOf w = a0 :: rest →
      payloadTriggerName (buildExecutionPayload w (some input) opts prd ppd) = some a0.name) := by
  refine ⟨?_, ?_, ?_⟩
  · intro M hM
    obtain ⟨a0, rest, hcons⟩ : ∃ a0 rest, activatorNodesOf w = a0 :: rest := by
      have hmem := List.mem_of_find?_eq_some hM
      cases hq : activatorNodesOf w with
      | nil => rw [hq] at hmem; cases hmem
      | cons f r => exact ⟨f, r, rfl⟩
    rw [hcons] at hM
    simp [buildExecutionPayload, h1, h2, hcons, case3StartNode, hM, payloadTriggerName]
  · intro W hM hW
    obtain ⟨a0, rest, hcons⟩ : ∃ a0 rest, activatorNodesOf w = a0 :: rest := by
      have hmem := List.mem_of_find?_eq_some hW
      cases hq : activatorNodesOf w with
      | nil => rw [hq] at hmem; cases hmem
      | cons f r => exact ⟨f, r, rfl⟩
    rw [hcons] at hM hW
    simp [buildExecutionPayload, h1, h2, hcons, case3StartNode, hM, hW, payloadTriggerName]
  · intro a0 rest hM hW hcons
    rw [hcons] at hM hW
    simp [buildExecutionPayload, h1, h2, hcons, case3StartNode, hM, hW, payloadTriggerName]

/-- Witness for C6 (Scenario B): with webhook `W` and manual trigger `M`
in the workflow, a full-input execution selects `M` over `W`. -/
theorem buildPayload_full_input_priority_witness :
    (activatorNodesOf wWM).find?
      (fun node => node.type == "n8n-nodes-base.manualTrigger") = some nodeM ∧
    payloadTriggerName (buildExecutionPayload wWM (some [("a", "1")]) {} none none) = some "M" :=
  ⟨by rfl,
   (buildPayload_full_input_priority wWM [("a", "1")] {} none none rfl rfl).1 nodeM (by rfl)⟩

/-- Claim C1, evaluated at the failing input: with no pinned activator, no
run data and active test webhooks, `executeWorkflow` returns status
`waiting` and the run engine is never invoked (second component `none`),
but the `executionId` field is absent (`none`): the waiting branch of
`executeManually` returns only `waitingForWebhook` and the orchestrator's
non-null assertion on `result.executionId` yields undefined rather than a
string. -/
theorem executeWorkflow_waiting_missing_executionId :
    executeWorkflow envWebhookWait "wf1" none {} "u1" =
      (.ok { executionId := none, status := some "waiting" }, none) := by rfl

/-- The runner-payload assembly preserves the (possibly discarded) run
data. -/
theorem assembleRunnerData_runData (env : Env) (payload : ManualRunPayload)
    (userId : String) (pushRef : Option String) (streamingEnabled : Option Bool)
    (runData : Option IRunData) (pinnedTrigger : Option INode) :
    (assembleRunnerData env payload userId pushRef streamingEnabled
      runData pinnedTrigger).runData = runData := by
  cases pinnedTrigger <;> simp only [assembleRunnerData] <;> split_ifs <;> rfl

/-- Claim C10: when the destination node of a manual execution names a
trigger-category node, the run data handed to the run engine is discarded
(`none`); when the destination does not exist or is not trigger-category,
the supplied run data is kept unchanged. -/
theorem executeManually_destination_trigger_runData (env : Env) (p : ManualRunPayload)
    (uid : String) (pr : Option String) (se : Option Bool) (d : String)
    (res : ManualResult) (data : RunnerData)
    (hd : p.destinationNode = some d) (hne : d ≠ "")
    (hrun : executeManually env p uid pr se = (res, some data)) :
    data.runData = if isDestinationNodeATrigger env d p.workflowData then none
                   else p.runData := by
  have hrd : effectiveRunData env p =
      (if isDestinationNodeATrigger env d p.workflowData then none else p.runData) := by
    simp [effectiveRunData, hd, hne]
  simp only [executeManually] at hrun
  split at hrun
  · simp at hrun
  · have h2 := congrArg Prod.snd hrun
    simp only [Option.some.injEq] at h2
    rw [← h2, assembleRunnerData_runData, hrd]

/-- Witness for C10: destination `T` is a trigger, so the runner payload
carries no run data despite the request supplying some. -/
theorem executeManually_destination_trigger_runData_witness :
    payloadT.destinationNode = some "T" ∧ ("T" : String) ≠ "" ∧
    payloadT.runData = some [("Z", "out")] ∧
    executeManually envTrig payloadT "u1" none none =
      ({ executionId := some "exec-1", waitingForWebhook := false }, some dataC10) ∧
    dataC10.runData = none :=
  ⟨rfl, by decide, rfl, by rfl,
   executeManually_destination_trigger_runData envTrig payloadT "u1" none none "T"
     { executionId := some "exec-1", waitingForWebhook := false } dataC10 rfl (by decide)
     (by rfl)⟩

/-- Counterexample for C8: the policy checker rejects the call but the
error workflow has no start node, so no synthetic failed-execution record
is created (`created = none`), contradicting the unconditional claim. -/
theorem errorWorkflow_policy_record_counterexample :
    executeErrorWorkflow envPolicyReject "ew1" edC8 "p1" =
      .ok { created := none, ran := none, outcome := .policyBlocked } := by rfl

/-- Claim C8 (amended): when the policy check rejects the invocation and
the error workflow has a start node, a synthetic failed-execution record is
created with `finished := false` and a `stoppedAt` timestamp, the invoker
returns, and the run engine is never invoked. -/
theorem errorWorkflow_policy_rejected_record (env : ErrEnv) (wid pid : String)
    (ed : WorkflowErrorData) (w : IWorkflowBase) (n : INode) (msg : String)
    (h1 : env.findWorkflow wid = .ok (some w))
    (h2 : env.policyCheck w
        (ed.lastNodeExecuted.bind (fun lne => w.nodes.find? (fun nd => nd.name == lne))) =
      .error msg)
    (h3 : env.getStartNode w = some n)
    (h4 : ∀ p, env.createExecution p = .ok ()) :
    ∃ rec, executeErrorWorkflow env wid ed pid =
        .ok { created := some rec, ran := none, outcome := .policyBlocked } ∧
      rec.finished = false ∧ rec.stoppedAt = some env.now := by
  refine ⟨{ data := env.generateFailed.data,
            mode := env.generateFailed.mode,
            finished := false,
            stoppedAt := some env.now,
            waitTill := none,
            status := env.generateFailed.status,
            workflowId := w.id }, ?_, rfl, rfl⟩
  simp [executeErrorWorkflow, executeErrorWorkflowRaw, h1, h2, h3, h4]

/-- Witness for C8 (amended): the rejecting environment whose error
workflow has start node `E` records a failed execution with
`finished := false` and a stop timestamp. -/
theorem errorWorkflow_policy_rejected_record_witness :
    envPolicyRejectStart.findWorkflow "ew1" = .ok (some wErr) ∧
    envPolicyRejectStart.getStartNode wErr =
      some { name := "E", type := "n8n-nodes-base.errorTrigger" } ∧
    ∃ rec, executeErrorWorkflow envPolicyRejectStart "ew1" edC8 "p1" =
        .ok { created := some rec, ran := none, outcome := .policyBlocked } ∧
      rec.finished = false ∧ rec.stoppedAt = some envPolicyRejectStart.now :=
  ⟨by rfl, by rfl,
   errorWorkflow_policy_rejected_record envPolicyRejectStart "ew1" "p1" edC8 wErr
     { name := "E", type := "n8n-nodes-base.errorTrigger" } "subworkflow policy denied"
     (by rfl) (by rfl) (by rfl) (fun _ => rfl)⟩

/-- Claim C9: for every behavior of the collaborators, including any of
them throwing, `executeErrorWorkflow` returns normally (`Except.ok`); the
outer try/catch converts every propagating exception into a caught-and-
logged return. -/
theorem executeErrorWorkflow_never_throws (env : ErrEnv) (wid : String)
    (ed : WorkflowErrorData) (pid : String) :
    ∃ r, executeErrorWorkflow env wid ed pid = .ok r := by
  cases hq : executeErrorWorkflowRaw env wid ed pid with
  | error e =>
    exact ⟨{ created := none, ran := none, outcome := .caught e },
      by simp [executeErrorWorkflow, hq]⟩
  | ok r => exact ⟨r, by simp [executeErrorWorkflow, hq]⟩

end WorkflowExec
